import Mathlib

/-
Shallow embedding of src/VPNClientGUI.py (WireGuard VPN Client Manager).

The source is a single Python file.  Its computational content is:
  * run_bash_command     - wraps subprocess.run over the helper script,
                           classifies exceptions, returns stripped stdout or None;
  * get_vpn_interface_names - splits stdout on newlines, strips lines, drops
                           blank lines, sorts;
  * get_active_vpn_interface - returns run_bash_command(["get_active"]);
  * update_status        - renders the active interface as a label and a
                           button state (Python truthiness on Optional[str]);
  * connect_vpn_gui / do_connect, disconnect_vpn_gui, import_config_gui -
                           the three mutating flows, each ending in
                           threading.Thread(target=... run_bash_command ...).start().

Python strings are modelled as Lean String; the Python primitives the source
relies on (str.strip, str.split, the substring operator `in`, sorted(), and
truthiness) are defined below by structural recursion on the character list so
that every definition evaluates inside the kernel.
-/

namespace VPNClientGUI

/-- ASCII whitespace recognised by Python's str.strip() with no argument
(space, tab, newline, carriage return, vertical tab, form feed). -/
def isPySpace (c : Char) : Bool :=
  c = ' ' ∨ c = '\t' ∨ c = '\n' ∨ c = '\r' ∨ c = '\x0b' ∨ c = '\x0c'

/-- Drop leading characters satisfying isPySpace. -/
def dropSpaces : List Char → List Char
  | [] => []
  | c :: cs => if isPySpace c then dropSpaces cs else c :: cs

/-- Python str.strip(): remove leading and trailing whitespace. -/
def pyStrip (s : String) : String :=
  ⟨(dropSpaces (dropSpaces s.data).reverse).reverse⟩

/-- Split a character list at every newline character; Python
str.split going by a one-character separator.  An empty input yields one
empty field, exactly as "".split(sep) does. -/
def splitNL : List Char → List (List Char)
  | [] => [[]]
  | c :: cs =>
    if c = '\n' then [] :: splitNL cs
    else
      match splitNL cs with
      | [] => [[c]]
      | l :: ls => (c :: l) :: ls

/-- Python output.split applied with separator newline. -/
def pySplitLines (s : String) : List String :=
  (splitNL s.data).map fun l => ⟨l⟩

/-- Python substring test: `needle in hay`. -/
def pyContains (hay needle : String) : Prop :=
  needle.data <:+: hay.data

instance (hay needle : String) : Decidable (pyContains hay needle) := by
  unfold pyContains
  infer_instance

/-- Lexicographic comparison of character lists by code point; this is the
order Python's sorted() uses on str values. -/
def lexLe : List Char → List Char → Bool
  | [], _ => true
  | _ :: _, [] => false
  | a :: as, b :: bs => if a < b then true else if a = b then lexLe as bs else false

/-- The ordering relation on strings induced by lexLe. -/
def pyLe (a b : String) : Prop := lexLe a.data b.data = true

instance : DecidableRel pyLe := fun a b => by
  unfold pyLe
  infer_instance

theorem lexLe_total (a b : List Char) : lexLe a b = true ∨ lexLe b a = true := by
  induction a generalizing b with
  | nil => left; rfl
  | cons x xs ih =>
    cases b with
    | nil => right; rfl
    | cons y ys =>
      rcases lt_trichotomy x y with h | h | h
      · left; simp [lexLe, h]
      · subst h
        rcases ih ys with h2 | h2
        · left; simp [lexLe, h2]
        · right; simp [lexLe, h2]
      · right; simp [lexLe, h, not_lt_of_gt h]

theorem lexLe_trans (a b c : List Char) (hab : lexLe a b = true) (hbc : lexLe b c = true) :
    lexLe a c = true := by
  induction a generalizing b c with
  | nil => rfl
  | cons x xs ih =>
    cases b with
    | nil => simp [lexLe] at hab
    | cons y ys =>
      cases c with
      | nil => simp [lexLe] at hbc
      | cons z zs =>
        simp only [lexLe] at hab hbc ⊢
        by_cases hxy : x < y
        · by_cases hyz : y < z
          · rw [if_pos (lt_trans hxy hyz)]
          · rw [if_neg hyz] at hbc
            by_cases heq : y = z
            · subst heq; rw [if_pos hxy]
            · rw [if_neg heq] at hbc; exact absurd hbc (by simp)
        · rw [if_neg hxy] at hab
          by_cases hxyeq : x = y
          · rw [if_pos hxyeq] at hab
            subst hxyeq
            by_cases hyz : x < z
            · rw [if_pos hyz]
            · rw [if_neg hyz] at hbc ⊢
              by_cases heq : x = z
              · rw [if_pos heq] at hbc ⊢; exact ih ys zs hab hbc
              · rw [if_neg heq] at hbc; exact absurd hbc (by simp)
          · rw [if_neg hxyeq] at hab; exact absurd hab (by simp)

instance : IsTotal String pyLe := ⟨fun a b => lexLe_total a.data b.data⟩

instance : IsTrans String pyLe := ⟨fun a b c => lexLe_trans a.data b.data c.data⟩

/-- Python sorted() on a list of strings: a sort by the code-point
lexicographic order. -/
def pySorted (l : List String) : List String := List.insertionSort pyLe l

/-! ## The subprocess boundary

run_bash_command executes
`subprocess.run(command, capture_output=True, text=True, check=True)` where
`command = [WIREGUARD_BASH_SCRIPT] + command_args` (source lines 25-29).  The
keyword arguments of that one call site are recorded in a structure; note the
source passes no timeout and does not set shell, whose subprocess.run default
is False. -/

/-- The keyword/positional arguments of the single subprocess.run call site. -/
structure SubprocessCall where
  argv : List String
  captureOutput : Bool
  text : Bool
  check : Bool
  shell : Bool
  timeout : Option Nat
  deriving DecidableEq

/-- The subprocess.run invocation built by run_bash_command for a given
helper-script path and command_args list. -/
def run_bash_command_call (scriptPath : String) (command_args : List String) : SubprocessCall :=
  ⟨scriptPath :: command_args, true, true, true, false, none⟩

/-- A completed helper process: exit code and captured output streams. -/
structure CompletedProcess where
  returncode : Int
  stdout : String
  stderr : String
  deriving DecidableEq

/-- Behaviour of one helper execution: how many time units it runs before
completing, and what it produces when it does. -/
structure HelperRun where
  duration : Nat
  exitcode : Int
  stdout : String
  stderr : String
  deriving DecidableEq

/-- What subprocess.run observes: either the process finished, or the
(optional) timeout expired first and TimeoutExpired is raised. -/
inductive RunEvent where
  | finished (p : CompletedProcess)
  | timeoutExpired
  deriving DecidableEq

/-- Semantics of subprocess.run waiting on the child: with a timeout of t it
raises TimeoutExpired when the child is still running after t time units;
with no timeout it waits for the child unconditionally. -/
def subprocess_run (c : SubprocessCall) (h : HelperRun) : RunEvent :=
  match c.timeout with
  | some t => if t < h.duration then .timeoutExpired else .finished ⟨h.exitcode, h.stdout, h.stderr⟩
  | none => .finished ⟨h.exitcode, h.stdout, h.stderr⟩

/-- How one attempt to launch and run the helper can end, mirroring the
exception structure of run_bash_command's try block: the process ran to
completion (CalledProcessError is then raised by check=True on a non-zero
exit code), or the script file was missing (FileNotFoundError), or some other
exception was raised (the catch-all `except Exception` branch). -/
inductive SpawnOutcome where
  | completed (p : CompletedProcess)
  | fileNotFound
  | otherError (msg : String)
  deriving DecidableEq

/-- The classification run_bash_command performs, one constructor per branch:
the try body reaching `return result.stdout.strip()` (success), the
CalledProcessError handler (the helper ran and failed: a tool failure carrying
diagnostic text), the FileNotFoundError handler (the helper is absent: an
infrastructure failure), and the generic Exception handler. -/
inductive OpResult where
  | success (stdout : String)
  | toolFailure (diag : String)
  | infraFailure (diag : String)
  | unexpectedError (msg : String)
  deriving DecidableEq

/-- Python `a or b`: the first operand when it is truthy, otherwise the
second (string truthiness is non-emptiness). -/
def pyOrStr (a b : String) : String := if a ≠ "" then a else b

/-- The diagnostic assembled in the CalledProcessError handler, source
line 41: `e.stderr.strip() or e.stdout.strip() or e.output.strip()`.  In
CalledProcessError, output is an alias of stdout, so the third operand equals
the second. -/
def calledProcessErrorDiag (p : CompletedProcess) : String :=
  pyOrStr (pyStrip p.stderr) (pyOrStr (pyStrip p.stdout) (pyStrip p.stdout))

/-- run_bash_command as a classifier: which handler branch runs and what
diagnostic it carries.  scriptPath is the WIREGUARD_BASH_SCRIPT value
interpolated into the FileNotFoundError message. -/
def run_bash_command_result (scriptPath : String) (o : SpawnOutcome) : OpResult :=
  match o with
  | .completed p =>
    if p.returncode = 0 then .success (pyStrip p.stdout)
    else .toolFailure (calledProcessErrorDiag p)
  | .fileNotFound => .infraFailure ("Script not found: " ++ scriptPath)
  | .otherError msg => .unexpectedError msg

/-- The value run_bash_command returns to its caller: the stripped stdout on
success, None from every exception handler (source lines 34, 39, 43, 46). -/
def run_bash_command (o : SpawnOutcome) : Option String :=
  match o with
  | .completed p => if p.returncode = 0 then some (pyStrip p.stdout) else none
  | .fileNotFound => none
  | .otherError _ => none

/-- run_bash_command including the wait on the child process: when
subprocess.run returns a completed process the try/except structure above
applies; a TimeoutExpired exception would fall into the catch-all
`except Exception` handler (the source installs no TimeoutExpired handler),
but with timeout = none it is never raised. -/
def run_bash_command_timed (scriptPath : String) (command_args : List String)
    (h : HelperRun) : Option String :=
  match subprocess_run (run_bash_command_call scriptPath command_args) h with
  | .finished p => run_bash_command (SpawnOutcome.completed p)
  | .timeoutExpired => run_bash_command (SpawnOutcome.otherError "TimeoutExpired")

/-! ## The GUI-level functions (source lines 50-150)

Each mutating flow ends in `threading.Thread(target=...).start()`; the Lean
model records the argv of the run_bash_command invocation such a thread would
execute. -/

/-- get_vpn_interface_names, source lines 50-56: split the helper output on
newlines, strip each line, keep the non-blank ones, and return them sorted.
`if output:` is Python truthiness on Optional[str]: the branch is taken only
when output is a non-empty string; both None (failed call) and "" fall to
`return []`. -/
def get_vpn_interface_names (o : SpawnOutcome) : List String :=
  match run_bash_command o with
  | some output =>
    if output = "" then []
    else pySorted (((pySplitLines output).map pyStrip).filter fun l => l != "")
  | none => []

/-- get_active_vpn_interface, source lines 58-60: the raw run_bash_command
result for get_active. -/
def get_active_vpn_interface (o : SpawnOutcome) : Option String :=
  run_bash_command o

/-- What update_status writes to the window: the status label text and
whether the disconnect button is enabled. -/
structure StatusView where
  statusText : String
  disconnectEnabled : Bool
  deriving DecidableEq

/-- update_status, source lines 62-72: `if active_iface:` is truthiness on
Optional[str], so None (helper failure) and "" (blank get_active output) both
take the else branch and render as Disconnected. -/
def update_status (o : SpawnOutcome) : StatusView :=
  match get_active_vpn_interface o with
  | some active_iface =>
    if active_iface = "" then ⟨"Status: Disconnected", false⟩
    else ⟨"Status: Connected to " ++ active_iface, true⟩
  | none => ⟨"Status: Disconnected", false⟩

/-- The two ways the do_connect handler (source lines 97-106) can end: the
"Selection Required" warning for an empty selection, or a background thread
started on run_bash_command with the recorded argv.  The source has no other
path: in particular no busy rejection exists. -/
inductive DoConnectAction where
  | selectionRequiredWarning
  | spawnExecutor (argv : List String)
  deriving DecidableEq

/-- do_connect, source lines 97-106: `if not selected_name:` warn and return,
otherwise start a thread running run_bash_command(["connect", selected_name]).
No check relates selected_name to the registry listing, and no in-flight
state is consulted. -/
def do_connect (selected_name : String) : DoConnectAction :=
  if selected_name = "" then .selectionRequiredWarning
  else .spawnExecutor ["connect", selected_name]

/-- How connect_vpn_gui (source lines 74-95) proceeds before the dialog:
with an empty listing it shows an informational popup and returns; otherwise
it opens the selection dialog over the listed interfaces. -/
inductive ConnectGuiAction where
  | noConfigsInfo
  | dialogOpened (interfaces : List String)
  deriving DecidableEq

/-- connect_vpn_gui up to opening the selection dialog, source lines 74-95:
`if not interfaces:` is truthiness on a list. -/
def connect_vpn_gui (listOutcome : SpawnOutcome) : ConnectGuiAction :=
  let interfaces := get_vpn_interface_names listOutcome
  if interfaces = [] then .noConfigsInfo
  else .dialogOpened interfaces

/-- The ways disconnect_vpn_gui (source lines 113-123) can end. -/
inductive DisconnectAction where
  | noActiveInfo
  | declined
  | spawnExecutor (argv : List String)
  deriving DecidableEq

/-- disconnect_vpn_gui, source lines 113-123: `if not active_iface:` is
truthiness on Optional[str]; then an askyesno confirmation gates the
background disconnect thread. -/
def disconnect_vpn_gui (activeOutcome : SpawnOutcome) (userConfirms : Bool) : DisconnectAction :=
  match get_active_vpn_interface activeOutcome with
  | none => .noActiveInfo
  | some active_iface =>
    if active_iface = "" then .noActiveInfo
    else if userConfirms then .spawnExecutor ["disconnect", active_iface]
    else .declined

/-- The ways import_config_gui (source lines 125-150) can end. -/
inductive ImportAction where
  | cancelled
  | emptyNameError
  | invalidNameError
  | spawnExecutor (argv : List String)
  deriving DecidableEq

/-- import_config_gui, source lines 125-150.  askopenfilename yields "" on
cancel (`if not source_file: return`); askstring yields None on cancel and
possibly "" on an empty entry (`if not config_name:` catches both); then the
name validation `if "/" in config_name or ".." in config_name` rejects, and
otherwise a background thread runs
run_bash_command(["import", source_file, config_name]).  No length bound is
checked and no registry lookup is made. -/
def import_config_gui (source_file : String) (config_name : Option String) : ImportAction :=
  if source_file = "" then .cancelled
  else
    match config_name with
    | none => .emptyNameError
    | some name =>
      if name = "" then .emptyNameError
      else if pyContains name "/" ∨ pyContains name ".." then .invalidNameError
      else .spawnExecutor ["import", source_file, name]

/-! ## Concurrency picture

Every mutating flow launches its Executor invocation on a fresh
threading.Thread.  The source takes no lock and consults no in-flight flag,
so the system state is just the multiset of helper invocations currently
running; every spawn adds to it unconditionally. -/

/-- The set of helper invocations (argvs) currently running on background
threads. -/
structure GuiThreads where
  inflight : List (List String)
  deriving DecidableEq

/-- threading.Thread(target=...).start(): one more concurrent helper
invocation, irrespective of what is already running. -/
def spawnThread (s : GuiThreads) (argv : List String) : GuiThreads :=
  ⟨argv :: s.inflight⟩

/-- A background thread finishing removes its invocation. -/
def finishThread (s : GuiThreads) (argv : List String) : GuiThreads :=
  ⟨s.inflight.erase argv⟩

/-- What the caller of do_connect observes. -/
inductive ConnectReply where
  | warningShown
  | threadStarted
  deriving DecidableEq

/-- do_connect acting on the thread state: the selection warning leaves it
unchanged; otherwise the connect invocation is spawned.  These are the only
two paths in the source; no reply means busy. -/
def do_connect_step (s : GuiThreads) (selected_name : String) : GuiThreads × ConnectReply :=
  match do_connect selected_name with
  | .selectionRequiredWarning => (s, .warningShown)
  | .spawnExecutor argv => (spawnThread s argv, .threadStarted)

/-! ## Helper lemmas -/

/-- Characterisation of when import_config_gui reaches the Executor: exactly
when the file dialog was not cancelled and the name is non-empty and free of
the two forbidden substrings.  No other condition is consulted. -/
theorem import_config_gui_some (sf name : String) (hsf : sf ≠ "") :
    import_config_gui sf (some name) =
      (if name = "" then ImportAction.emptyNameError
       else if pyContains name "/" ∨ pyContains name ".." then ImportAction.invalidNameError
       else ImportAction.spawnExecutor ["import", sf, name]) := by
  unfold import_config_gui
  rw [if_neg hsf]

theorem import_spawn_iff (sf name : String) :
    import_config_gui sf (some name) = ImportAction.spawnExecutor ["import", sf, name] ↔
      (sf ≠ "" ∧ name ≠ "" ∧ ¬ pyContains name "/" ∧ ¬ pyContains name "..") := by
  by_cases hsf : sf = ""
  · unfold import_config_gui
    rw [if_pos hsf]
    simp [hsf]
  · rw [import_config_gui_some sf name hsf]
    by_cases hn : name = ""
    · rw [if_pos hn]
      simp [hn]
    · rw [if_neg hn]
      by_cases hc : pyContains name "/" ∨ pyContains name ".."
      · rw [if_pos hc]
        constructor
        · intro h
          exact absurd h (by simp)
        · rintro ⟨-, -, h1, h2⟩
          rcases hc with h | h
          · exact absurd h h1
          · exact absurd h h2
      · rw [if_neg hc]
        push_neg at hc
        simp [hsf, hn, hc.1, hc.2]

/-- Whenever import_config_gui hands an argv to the Executor, that argv is
exactly the import operation on the chosen file and name, unmodified. -/
theorem import_spawn_argv (sf name : String) (argv : List String)
    (h : import_config_gui sf (some name) = ImportAction.spawnExecutor argv) :
    argv = ["import", sf, name] := by
  by_cases hsf : sf = ""
  · unfold import_config_gui at h
    rw [if_pos hsf] at h
    exact absurd h (by simp)
  · rw [import_config_gui_some sf name hsf] at h
    by_cases hn : name = ""
    · rw [if_pos hn] at h
      exact absurd h (by simp)
    · rw [if_neg hn] at h
      by_cases hc : pyContains name "/" ∨ pyContains name ".."
      · rw [if_pos hc] at h
        exact absurd h (by simp)
      · rw [if_neg hc] at h
        injection h with h2
        exact h2.symm

/-- pySorted output is sorted in the code-point lexicographic order. -/
theorem pySorted_sorted (l : List String) : List.Sorted pyLe (pySorted l) :=
  List.sorted_insertionSort pyLe l

/-- pySorted output is a permutation of its input. -/
theorem pySorted_perm (l : List String) : (pySorted l).Perm l :=
  List.perm_insertionSort pyLe l

/-- On a successful, non-blank listing, get_vpn_interface_names is the sort
of the stripped non-blank lines. -/
theorem get_vpn_interface_names_eq (o : SpawnOutcome) (output : String)
    (h : run_bash_command o = some output) (hne : output ≠ "") :
    get_vpn_interface_names o =
      pySorted (((pySplitLines output).map pyStrip).filter fun l => l != "") := by
  unfold get_vpn_interface_names
  rw [h]
  exact if_neg hne

/-! ## Claims -/

/-- Claim C1 (amended): the source enforces no serialization of mutating
operations.  For every thread state — in particular one that already has a
mutating Executor invocation in flight — do_connect with a non-empty
selection starts a further background Executor invocation unconditionally;
the only other reply in the code is the empty-selection warning, so no busy
rejection exists and two concurrent connect calls both proceed. -/
theorem do_connect_no_serialization (s : GuiThreads) (name : String) (h : name ≠ "") :
    do_connect_step s name = (⟨["connect", name] :: s.inflight⟩, ConnectReply.threadStarted) := by
  simp [do_connect_step, do_connect, spawnThread, h]

/-- Witness for do_connect_no_serialization: with a connect already in
flight, a second connect is spawned as well rather than rejected. -/
theorem do_connect_no_serialization_witness :
    ("work" : String) ≠ "" ∧
      do_connect_step ⟨[["connect", "home"]]⟩ "work" =
        (⟨[["connect", "work"], ["connect", "home"]]⟩, ConnectReply.threadStarted) :=
  ⟨by decide, do_connect_no_serialization ⟨[["connect", "home"]]⟩ "work" (by decide)⟩

/-- Counterexample to claim C1 as stated: two connect calls arriving with no
completion in between both get threadStarted — neither is rejected — and
afterwards two mutating Executor invocations are in flight at once. -/
theorem connect_serialization_counterexample :
    (do_connect_step ⟨[]⟩ "home").2 = ConnectReply.threadStarted ∧
    (do_connect_step (do_connect_step ⟨[]⟩ "home").1 "work").2 = ConnectReply.threadStarted ∧
    (do_connect_step (do_connect_step ⟨[]⟩ "home").1 "work").1.inflight =
      [["connect", "work"], ["connect", "home"]] := by
  decide

/-- Claim C2 (amended): no timeout is enforced.  run_bash_command passes no
timeout to subprocess.run, so the wait on the helper finishes with the
helper's own result whatever its duration; no timeout expiry and hence no
InfraFailure("timeout") path exists in the source. -/
theorem run_bash_command_no_timeout (scriptPath : String) (command_args : List String)
    (h : HelperRun) :
    (run_bash_command_call scriptPath command_args).timeout = none ∧
    subprocess_run (run_bash_command_call scriptPath command_args) h =
      RunEvent.finished ⟨h.exitcode, h.stdout, h.stderr⟩ :=
  ⟨rfl, rfl⟩

/-- Counterexample to claim C2 as stated, on the spec's own scenario: a
connect whose helper runs for 10 time units against the claimed 5-unit
timeout is simply waited for; the run finishes normally and the call returns
the helper's stdout, never a timeout failure. -/
theorem run_bash_command_timeout_counterexample :
    (run_bash_command_call "VPN.sh" ["connect", "home"]).timeout = none ∧
    subprocess_run (run_bash_command_call "VPN.sh" ["connect", "home"]) ⟨10, 0, "connected", ""⟩ =
      RunEvent.finished ⟨0, "connected", ""⟩ ∧
    run_bash_command_timed "VPN.sh" ["connect", "home"] ⟨10, 0, "connected", ""⟩ =
      some "connected" := by
  decide

/-- Claim C3 (amended): get_active_vpn_interface does distinguish the three
outcomes at its own interface — a name, some "" for blank helper output, and
none for a failed helper call — but update_status collapses the latter two:
none-active and helper-unreachable are rendered identically as
"Status: Disconnected" with the disconnect button disabled, so the status
consumer cannot tell them apart. -/
theorem update_status_collapse :
    get_active_vpn_interface (SpawnOutcome.completed ⟨0, "wg0\n", ""⟩) = some "wg0" ∧
    get_active_vpn_interface (SpawnOutcome.completed ⟨0, " \n", ""⟩) = some "" ∧
    get_active_vpn_interface SpawnOutcome.fileNotFound = none ∧
    (some "" ≠ (none : Option String)) ∧
    update_status (SpawnOutcome.completed ⟨0, "wg0\n", ""⟩) =
      ⟨"Status: Connected to wg0", true⟩ ∧
    update_status (SpawnOutcome.completed ⟨0, " \n", ""⟩) = ⟨"Status: Disconnected", false⟩ ∧
    update_status SpawnOutcome.fileNotFound = ⟨"Status: Disconnected", false⟩ := by
  decide

/-- Counterexample to claim C3 as stated: the helper-unreachable outcome and
the blank-output outcome produce the very same StatusView, so the two states
are reported to the status consumer as the same state. -/
theorem update_status_counterexample :
    update_status SpawnOutcome.fileNotFound = update_status (SpawnOutcome.completed ⟨0, "", ""⟩) ∧
    (update_status SpawnOutcome.fileNotFound).statusText = "Status: Disconnected" := by
  decide

/-- Claim C4 (amended): import-name validation accepts exactly the names
that are non-empty and contain neither the substring "/" nor the substring
".." (given a chosen source file); no length bound is checked.  Moreover the
Executor is only ever invoked with the validated import argv, so rejected
names never cause an Executor invocation. -/
theorem import_validation_accepts_iff (source_file name : String) :
    (import_config_gui source_file (some name) =
        ImportAction.spawnExecutor ["import", source_file, name] ↔
      (source_file ≠ "" ∧ name ≠ "" ∧ ¬ pyContains name "/" ∧ ¬ pyContains name "..")) ∧
    ∀ argv, import_config_gui source_file (some name) = ImportAction.spawnExecutor argv →
      argv = ["import", source_file, name] :=
  ⟨import_spawn_iff source_file name, import_spawn_argv source_file name⟩

/-- Witness for import_validation_accepts_iff: the name wg0 passes the
source's validation and reaches the Executor. -/
theorem import_validation_accepts_iff_witness :
    import_config_gui "cfg.png" (some "wg0") =
      ImportAction.spawnExecutor ["import", "cfg.png", "wg0"] :=
  (import_validation_accepts_iff "cfg.png" "wg0").1.mpr (by decide)

/-- Counterexample to claim C4 as stated: there is no length bound L making
the source's acceptance equivalent to (non-empty, no "/", no "..", length
within L) — for every candidate bound, the name made of L + 1 letters a is
accepted by the code although it exceeds the bound. -/
theorem import_validation_no_length_bound :
    ¬ ∃ L : Nat, ∀ name : String,
        import_config_gui "cfg.png" (some name) =
            ImportAction.spawnExecutor ["import", "cfg.png", name] ↔
          (name ≠ "" ∧ ¬ pyContains name "/" ∧ ¬ pyContains name ".." ∧ name.length ≤ L) := by
  rintro ⟨L, hL⟩
  set name : String := ⟨List.replicate (L + 1) 'a'⟩ with hname
  have hdata : name.data = List.replicate (L + 1) 'a' := rfl
  have hne : name ≠ "" := by
    intro h
    have h2 : List.replicate (L + 1) 'a' = ([] : List Char) := congrArg String.data h
    simpa using congrArg List.length h2
  have hslash : ¬ pyContains name "/" := by
    intro hsub
    have hsub2 : ("/" : String).data <:+: name.data := hsub
    have hmem : '/' ∈ name.data := hsub2.subset (by decide)
    rw [hdata] at hmem
    exact absurd (List.eq_of_mem_replicate hmem) (by decide)
  have hdots : ¬ pyContains name ".." := by
    intro hsub
    have hsub2 : (".." : String).data <:+: name.data := hsub
    have hmem : '.' ∈ name.data := hsub2.subset (by decide)
    rw [hdata] at hmem
    exact absurd (List.eq_of_mem_replicate hmem) (by decide)
  have hacc : import_config_gui "cfg.png" (some name) =
      ImportAction.spawnExecutor ["import", "cfg.png", name] :=
    (import_spawn_iff "cfg.png" name).mpr ⟨by decide, hne, hslash, hdots⟩
  have hlen : name.length ≤ L := ((hL name).mp hacc).2.2.2
  have hlen2 : name.data.length ≤ L := hlen
  rw [hdata] at hlen2
  simp at hlen2

/-- Claim C5 (amended): the import validator checks only emptiness and the
two forbidden substrings; it consults no registry snapshot, so a proposed
name that collides with an existing registry entry is still handed to the
Executor (collision detection is left to the helper). -/
theorem import_no_collision_check (registry : List String) (source_file name : String)
    (hsf : source_file ≠ "") (_hmem : name ∈ registry) (hne : name ≠ "")
    (h1 : ¬ pyContains name "/") (h2 : ¬ pyContains name "..") :
    import_config_gui source_file (some name) =
      ImportAction.spawnExecutor ["import", source_file, name] :=
  (import_spawn_iff source_file name).mpr ⟨hsf, hne, h1, h2⟩

/-- Witness for import_no_collision_check: home collides with the snapshot
and is imported anyway. -/
theorem import_no_collision_check_witness :
    ("cfg.png" : String) ≠ "" ∧ "home" ∈ ["home", "work"] ∧ ("home" : String) ≠ "" ∧
    ¬ pyContains "home" "/" ∧ ¬ pyContains "home" ".." ∧
    import_config_gui "cfg.png" (some "home") =
      ImportAction.spawnExecutor ["import", "cfg.png", "home"] :=
  ⟨by decide, by decide, by decide, by decide, by decide,
    import_no_collision_check ["home", "work"] "cfg.png" "home" (by decide) (by decide)
      (by decide) (by decide) (by decide)⟩

/-- Counterexample to claim C5 as stated: with the helper listing home and
work, the name home is already present in the registry snapshot, yet the
importing flow hands it to the Executor instead of rejecting the collision. -/
theorem import_collision_counterexample :
    "home" ∈ get_vpn_interface_names (SpawnOutcome.completed ⟨0, "home\nwork\n", ""⟩) ∧
    import_config_gui "cfg.png" (some "home") =
      ImportAction.spawnExecutor ["import", "cfg.png", "home"] := by
  decide

/-- Claim C6 (amended): on a successful non-blank listing,
get_vpn_interface_names parses one name per line, strips each line, drops the
blank ones and returns them sorted in the code-point lexicographic order —
but it applies no per-line TunnelName validation: every non-blank stripped
line is kept, valid or not. -/
theorem get_vpn_interface_names_spec (o : SpawnOutcome) (output : String)
    (h : run_bash_command o = some output) (hne : output ≠ "") :
    List.Sorted pyLe (get_vpn_interface_names o) ∧
    (get_vpn_interface_names o).Perm
      (((pySplitLines output).map pyStrip).filter fun l => l != "") ∧
    ∀ l ∈ get_vpn_interface_names o, l ≠ "" := by
  rw [get_vpn_interface_names_eq o output h hne]
  refine ⟨pySorted_sorted _, pySorted_perm _, ?_⟩
  intro l hl
  have hmem : l ∈ ((pySplitLines output).map pyStrip).filter fun x => x != "" :=
    (pySorted_perm _).mem_iff.mp hl
  have hp := List.of_mem_filter hmem
  simpa using hp

/-- Witness for get_vpn_interface_names_spec on the listing "b\na". -/
theorem get_vpn_interface_names_spec_witness :
    run_bash_command (SpawnOutcome.completed ⟨0, "b\na", ""⟩) = some "b\na" ∧
    ("b\na" : String) ≠ "" ∧
    (List.Sorted pyLe (get_vpn_interface_names (SpawnOutcome.completed ⟨0, "b\na", ""⟩)) ∧
      (get_vpn_interface_names (SpawnOutcome.completed ⟨0, "b\na", ""⟩)).Perm
        (((pySplitLines "b\na").map pyStrip).filter fun l => l != "") ∧
      ∀ l ∈ get_vpn_interface_names (SpawnOutcome.completed ⟨0, "b\na", ""⟩), l ≠ "") :=
  ⟨by decide, by decide,
    get_vpn_interface_names_spec (SpawnOutcome.completed ⟨0, "b\na", ""⟩) "b\na"
      (by decide) (by decide)⟩

/-- Counterexample to claim C6 as stated: the line ../evil is not a valid
TunnelName (it contains the substring ".."), yet listConfigured keeps it
instead of skipping it. -/
theorem get_vpn_interface_names_counterexample :
    get_vpn_interface_names (SpawnOutcome.completed ⟨0, "wg0\n../evil\n", ""⟩) =
      ["../evil", "wg0"] ∧
    pyContains "../evil" ".." := by
  decide

/-- Claim C7: on a non-zero exit the failure is classified ToolFailure and
carries the trimmed stderr, falling back to the trimmed stdout when the
trimmed stderr is empty (the source's third fallback, e.output, is an alias
of e.stdout); a missing helper script is classified in the distinct
InfraFailure category. -/
theorem run_bash_command_classification (scriptPath : String) (p : CompletedProcess)
    (h : p.returncode ≠ 0) :
    run_bash_command_result scriptPath (SpawnOutcome.completed p) =
      OpResult.toolFailure
        (if pyStrip p.stderr ≠ "" then pyStrip p.stderr else pyStrip p.stdout) ∧
    run_bash_command_result scriptPath SpawnOutcome.fileNotFound =
      OpResult.infraFailure ("Script not found: " ++ scriptPath) ∧
    ∀ d d' : String, OpResult.toolFailure d ≠ OpResult.infraFailure d' := by
  refine ⟨?_, rfl, fun d d' hdd => OpResult.noConfusion hdd⟩
  simp only [run_bash_command_result, calledProcessErrorDiag, pyOrStr]
  rw [if_neg h]
  by_cases hs : pyStrip p.stderr ≠ ""
  · rw [if_pos hs, if_pos hs]
  · rw [if_neg hs, if_neg hs]
    by_cases ho : pyStrip p.stdout ≠ ""
    · rw [if_pos ho]
    · rw [if_neg ho]

/-- Witness for run_bash_command_classification: exit code 1 with empty
stderr falls back to the stdout diagnostic. -/
theorem run_bash_command_classification_witness :
    (1 : Int) ≠ 0 ∧
    run_bash_command_result "VPN.sh" (SpawnOutcome.completed ⟨1, "stdout diag", ""⟩) =
      OpResult.toolFailure
        (if pyStrip "" ≠ "" then pyStrip "" else pyStrip "stdout diag") :=
  ⟨by decide,
    (run_bash_command_classification "VPN.sh" ⟨1, "stdout diag", ""⟩ (by decide)).1⟩

/-- Claim C8 (amended): do_connect rejects only an empty selection.  A
non-empty target name is handed to the Executor with no check of membership
in the registry snapshot — in the source the read-only selection widget is
the only thing restricting the name to the listing, not the handler. -/
theorem do_connect_no_registry_check (registry : List String) (name : String)
    (hne : name ≠ "") (_hnot : name ∉ registry) :
    do_connect name = DoConnectAction.spawnExecutor ["connect", name] := by
  unfold do_connect
  rw [if_neg hne]

/-- Witness for do_connect_no_registry_check: office is outside the snapshot
home, work and is still passed to the Executor. -/
theorem do_connect_no_registry_check_witness :
    ("office" : String) ≠ "" ∧
    "office" ∉ get_vpn_interface_names (SpawnOutcome.completed ⟨0, "home\nwork", ""⟩) ∧
    do_connect "office" = DoConnectAction.spawnExecutor ["connect", "office"] :=
  ⟨by decide, by decide,
    do_connect_no_registry_check
      (get_vpn_interface_names (SpawnOutcome.completed ⟨0, "home\nwork", ""⟩)) "office"
      (by decide) (by decide)⟩

/-- Counterexample to claim C8 as stated, on the spec's own scenario:
registry snapshot home, work; connect office is not rejected — the handler
spawns the helper with ["connect", "office"]. -/
theorem connect_membership_counterexample :
    "office" ∉ get_vpn_interface_names (SpawnOutcome.completed ⟨0, "home\nwork", ""⟩) ∧
    do_connect "office" = DoConnectAction.spawnExecutor ["connect", "office"] := by
  decide

/-- Claim C9: the helper is invoked with the argument vector equal to the
script path followed by the operation and its arguments, unmodified, and
subprocess.run is given the vector directly with shell left at its False
default, so no argument passes through a shell. -/
theorem run_bash_command_argv (scriptPath operation : String) (args : List String) :
    (run_bash_command_call scriptPath (operation :: args)).argv =
      scriptPath :: operation :: args ∧
    (run_bash_command_call scriptPath (operation :: args)).shell = false :=
  ⟨rfl, rfl⟩

/-- Claim C10: run_bash_command is total over its outcome space — stripped
stdout on a zero exit, none on a non-zero exit, on a missing script and on
any other exception — and get_vpn_interface_names maps both a failed call
and a blank successful listing to the empty list. -/
theorem run_bash_command_total :
    (∀ p : CompletedProcess, p.returncode = 0 →
      run_bash_command (SpawnOutcome.completed p) = some (pyStrip p.stdout)) ∧
    (∀ p : CompletedProcess, p.returncode ≠ 0 →
      run_bash_command (SpawnOutcome.completed p) = none) ∧
    run_bash_command SpawnOutcome.fileNotFound = none ∧
    (∀ msg : String, run_bash_command (SpawnOutcome.otherError msg) = none) ∧
    (∀ o : SpawnOutcome, run_bash_command o = none → get_vpn_interface_names o = []) ∧
    (∀ o : SpawnOutcome, run_bash_command o = some "" → get_vpn_interface_names o = []) := by
  refine ⟨?_, ?_, rfl, fun msg => rfl, ?_, ?_⟩
  · intro p hp
    simp only [run_bash_command]
    rw [if_pos hp]
  · intro p hp
    simp only [run_bash_command]
    rw [if_neg hp]
  · intro o ho
    simp [get_vpn_interface_names, ho]
  · intro o ho
    simp [get_vpn_interface_names, ho]

/-- Witness for run_bash_command_total: a non-zero exit yields none and a
missing script yields an empty listing. -/
theorem run_bash_command_total_witness :
    (2 : Int) ≠ 0 ∧
    run_bash_command (SpawnOutcome.completed ⟨2, "boom", "err"⟩) = none ∧
    get_vpn_interface_names SpawnOutcome.fileNotFound = [] :=
  ⟨by decide, run_bash_command_total.2.1 ⟨2, "boom", "err"⟩ (by decide),
    run_bash_command_total.2.2.2.2.1 SpawnOutcome.fileNotFound run_bash_command_total.2.2.1⟩

end VPNClientGUI

